import Mathlib

/-!
Shallow embedding of the Robohub service (src/main.py), a FastAPI CRUD
application over three PostgreSQL tables: robots, parts and
maintenance_logs.  Each request handler becomes a pure Lean function from
the database state (a `Store`) and the request data to a response outcome,
returning the new state for the mutating handlers.

Modelling conventions, each matching a construct of the source:
- Dates (`datetime.date`) are integer day numbers (`Date := Int`); a
  handler that lets a `default_factory=date.today` fire receives the
  current day as an explicit `today` argument.
- VARCHAR columns declared through a plain `sa_column=Column(...)` are
  nullable at the storage layer, hence `Option String`; likewise the
  fields of the `parts` table that the create handler fills straight from
  `body.model_dump()` (which yields `None` for unset fields, overriding
  the model defaults) are `Option` typed.
- `session.get(table, key)` is a first-match lookup on the primary key.
- A raised `HTTPException(status)` becomes `HandlerOutcome.raised status`;
  an `HTTPException` that the handler RETURNS instead of raising (FastAPI
  then serialises it as a 200 body) becomes `.returnedException status`;
  `Response(status_code=204)` becomes `.noContent`; an unhandled
  storage-layer exception escaping the handler becomes `.storageError`.
- The storage layer itself is modelled only where a claim needs it: the
  UNIQUE constraint on robots.name (PostgreSQL UNIQUE admits several
  NULLs) and the foreign keys of maintenance_logs.
- Server-assigned integer primary keys (robots.id, maintenance_logs.id are
  single-column integer keys, hence autoincremented) are passed in as an
  explicit fresh-id argument.
-/

namespace Robohub

abbrev Date := Int

/-- Row of the robots table (class `robots` in src/main.py). -/
structure robots where
  id : Int
  name : Option String
  type : Option String
  created_at : Date
deriving Repr, DecidableEq

/-- Row of the parts table (class `parts`): composite primary key
(robot_id, id), where id may be NULL in the model (no autoincrement on a
composite key). -/
structure parts where
  robot_id : Int
  id : Option Int
  name : Option String
  quantity : Option Int
  last_checked : Option Date
deriving Repr, DecidableEq

/-- Row of the maintenance_logs table (class `maintenance_logs`). -/
structure maintenance_logs where
  id : Int
  robot_id : Int
  parts_id : Option Int
  description : String
  log_date : Date
  done_by : String
deriving Repr, DecidableEq

/-- Transfer shape `create_update_robots`: both fields optional; `none`
models a field not set in the request body (`exclude_unset`). -/
structure create_update_robots where
  name : Option String
  type : Option String
deriving Repr, DecidableEq

/-- Transfer shape `create_update_parts`. -/
structure create_update_parts where
  name : Option String
  quantity : Option Int
  last_checked : Option Date
deriving Repr, DecidableEq

/-- Transfer shape `create_maintenance_log`: description and done_by are
required (validated at request parsing), parts_id optional. -/
structure create_maintenance_log where
  parts_id : Option Int
  description : String
  done_by : String
deriving Repr, DecidableEq

/-- The database state: the three tables. -/
structure Store where
  robots : List robots
  parts : List parts
  logs : List maintenance_logs
deriving Repr, DecidableEq

/-- Outcome of one request handler. -/
inductive HandlerOutcome (α : Type) where
  | ok (body : α)
  | returnedException (status : Nat)
  | raised (status : Nat)
  | noContent
  | storageError
deriving Repr, DecidableEq

/-- True exactly when the handler raised an HTTPException. -/
def HandlerOutcome.isRaised : HandlerOutcome α → Bool
  | .raised _ => true
  | _ => false

/-- Status of a raised HTTPException, if any. -/
def HandlerOutcome.raisedStatus : HandlerOutcome α → Option Nat
  | .raised s => some s
  | _ => none

/-- `session.get(robots, id)`: primary-key lookup. -/
def findRobot (st : Store) (id : Int) : Option robots :=
  st.robots.find? (fun r => r.id == id)

/-- `session.get(parts, (robot_id, id))`: composite primary-key lookup. -/
def findPart (st : Store) (robot_id id : Int) : Option parts :=
  st.parts.find? (fun p => p.robot_id == robot_id && p.id == some id)

/-- Storage model of the UNIQUE constraint on robots.name: inserting or
updating the robot `selfId` to name `nm` violates it exactly when `nm` is
non-NULL and another robot already carries that name. -/
def nameConflict (rs : List robots) (selfId : Int) (nm : Option String) : Bool :=
  match nm with
  | none => false
  | some s => rs.any (fun r => r.id != selfId && r.name == some s)

/-- Handler `get_specific_robot` (GET /robots/id): on a miss the source
RETURNS the HTTPException instead of raising it. -/
def get_specific_robot (st : Store) (id : Int) : HandlerOutcome robots :=
  match findRobot st id with
  | none => .returnedException 404
  | some data => .ok data

/-- Handler `add_robot` (POST /robots): builds the row from the body
(id and created_at are not in the transfer shape, so the id is
server-assigned, modelled by `newId`, and created_at defaults to today),
adds and commits; a UNIQUE violation on the name is unhandled. -/
def add_robot (st : Store) (newId : Int) (today : Date)
    (body : create_update_robots) : HandlerOutcome robots × Store :=
  let new_robot : robots :=
    { id := newId, name := body.name, type := body.type, created_at := today }
  if nameConflict st.robots newId new_robot.name then
    (.storageError, st)
  else
    (.ok new_robot, { st with robots := st.robots ++ [new_robot] })

/-- `setattr` loop of `update_robot`: only the fields present in the
update dictionary (the set fields of the body) are written. -/
def apply_robot_updates (data : robots) (body : create_update_robots) : robots :=
  { data with
    name := match body.name with | some s => some s | none => data.name
    type := match body.type with | some s => some s | none => data.type }

/-- Handler `update_robot` (PATCH /robots/id): raises 404 when the robot
is absent, raises 400 when the body sets no fields, otherwise applies the
set fields and commits inside try/except: a failing commit (UNIQUE name
violation) is rolled back silently, `session.refresh` then reloads the
stored row and the handler still answers with the success shape. -/
def update_robot (st : Store) (id : Int)
    (body : create_update_robots) : HandlerOutcome robots × Store :=
  match findRobot st id with
  | none => (.raised 404, st)
  | some data =>
    if body.name.isNone && body.type.isNone then
      (.raised 400, st)
    else
      let updated := apply_robot_updates data body
      if nameConflict st.robots id updated.name then
        (.ok data, st)
      else
        (.ok updated,
         { st with robots := st.robots.map (fun r => if r.id == id then updated else r) })

/-- Handler `delete_robot` (DELETE /robots/id): on a miss the source
RETURNS the HTTPException instead of raising it; otherwise it deletes the
maintenance logs of the robot, then its parts, then the robot row, in
that order, and commits. -/
def delete_robot (st : Store) (id : Int) : HandlerOutcome Unit × Store :=
  match findRobot st id with
  | none => (.returnedException 404, st)
  | some _ =>
    let st1 := { st with logs := st.logs.filter (fun l => l.robot_id != id) }
    let st2 := { st1 with parts := st1.parts.filter (fun p => p.robot_id != id) }
    let st3 := { st2 with robots := st2.robots.filter (fun r => r.id != id) }
    (.noContent, st3)

/-- Handler `add_part_in_a_robot` (POST /robots/robot_id/parts): raises
404 when the robot is absent; otherwise builds the part row with the path
robot_id and the body fields exactly as `model_dump()` yields them (id is
never passed, so it is NULL). -/
def add_part_in_a_robot (st : Store) (robot_id : Int)
    (body : create_update_parts) : HandlerOutcome parts × Store :=
  match findRobot st robot_id with
  | none => (.raised 404, st)
  | some _ =>
    let new_part : parts :=
      { robot_id := robot_id, id := none, name := body.name,
        quantity := body.quantity, last_checked := body.last_checked }
    (.ok new_part, { st with parts := st.parts ++ [new_part] })

/-- `setattr` loop of `update_part`. -/
def apply_part_updates (data : parts) (body : create_update_parts) : parts :=
  { data with
    name := match body.name with | some s => some s | none => data.name
    quantity := match body.quantity with | some q => some q | none => data.quantity
    last_checked := match body.last_checked with | some d => some d | none => data.last_checked }

/-- Handler `update_part` (PATCH /robots/robot_id/parts/id): raises 404
when the composite key misses, raises 404 (not 400) when the body sets no
fields, otherwise applies the set fields and commits (the parts table has
no non-key constraint the update could violate, so the commit succeeds). -/
def update_part (st : Store) (robot_id id : Int)
    (body : create_update_parts) : HandlerOutcome parts × Store :=
  match findPart st robot_id id with
  | none => (.raised 404, st)
  | some data =>
    if body.name.isNone && body.quantity.isNone && body.last_checked.isNone then
      (.raised 404, st)
    else
      let updated := apply_part_updates data body
      let newParts := st.parts.map
        (fun p => if p.robot_id == robot_id && p.id == some id then updated else p)
      (.ok updated, { st with parts := newParts })

/-- Projection returned by `get_maintenance_logs_of_a_robot`: every
column of the log except robot_id. -/
structure LogView where
  parts_id : Option Int
  id : Int
  description : String
  log_date : Date
  done_by : String
deriving Repr, DecidableEq

/-- Row-to-projection map of `get_maintenance_logs_of_a_robot`. -/
def logView (l : maintenance_logs) : LogView :=
  { parts_id := l.parts_id, id := l.id, description := l.description,
    log_date := l.log_date, done_by := l.done_by }

/-- Handler `get_maintenance_logs_of_a_robot`
(GET /robots/robot_id/maintenance_logs?parts=bool): no robot existence
check; with parts=true every log of the robot, with parts=false only the
logs whose parts_id is NULL. -/
def get_maintenance_logs_of_a_robot (st : Store) (robot_id : Int)
    (parts : Bool) : HandlerOutcome (List LogView) :=
  let results :=
    if parts then
      st.logs.filter (fun l => l.robot_id == robot_id)
    else
      st.logs.filter (fun l => l.robot_id == robot_id && l.parts_id == none)
  .ok (results.map logView)

/-- Storage model of the two foreign keys of maintenance_logs: robot_id
must reference a robot, and (robot_id, parts_id), when parts_id is
non-NULL, must reference a part of that same robot. -/
def log_fk_ok (st : Store) (robot_id : Int) (parts_id : Option Int) : Bool :=
  (st.robots.any (fun r => r.id == robot_id)) &&
  (match parts_id with
   | none => true
   | some pid => st.parts.any (fun p => p.robot_id == robot_id && p.id == some pid))

/-- Handler `add_maintenance_log` (POST /robots/robot_id/maintenance_logs):
no existence check of robot_id or parts_id in the handler; the row is
built (id server-assigned, log_date defaulting to today) and committed,
so the only possible rejection is the storage-layer foreign-key
violation, which escapes unhandled. -/
def add_maintenance_log (st : Store) (robot_id newId : Int) (today : Date)
    (body : create_maintenance_log) : HandlerOutcome maintenance_logs × Store :=
  let new_log : maintenance_logs :=
    { id := newId, robot_id := robot_id, parts_id := body.parts_id,
      description := body.description, log_date := today, done_by := body.done_by }
  if log_fk_ok st robot_id body.parts_id then
    (.ok new_log, { st with logs := st.logs ++ [new_log] })
  else
    (.storageError, st)

/-! Theorems. -/

/-- A robot id carried by no row makes the primary-key lookup miss. -/
lemma findRobot_eq_none_of_absent (st : Store) (id : Int)
    (h : ∀ r ∈ st.robots, r.id ≠ id) : findRobot st id = none := by
  unfold findRobot
  rw [List.find?_eq_none]
  intro r hr
  simpa using h r hr

/-- A primary-key lookup hit is a table row with the looked-up id. -/
lemma findRobot_some (st : Store) (id : Int) (r : robots)
    (h : findRobot st id = some r) : r ∈ st.robots ∧ r.id = id := by
  unfold findRobot at h
  exact ⟨List.mem_of_find?_eq_some h, by simpa using List.find?_some h⟩

/-- C1: for a robot id present in the store, delete_robot answers
no-content and the resulting store keeps exactly the maintenance logs and
parts not referencing that robot and the robots with a different id, so
no orphaned part or log row referencing the robot remains; the embedding
performs the three deletions in the order of the source (logs, then
parts, then the robot row). -/
theorem delete_robot_cascade_no_orphans (st : Store) (id : Int)
    (hpresent : ∃ r ∈ st.robots, r.id = id) :
    (delete_robot st id).1 = .noContent ∧
    (∀ l, l ∈ (delete_robot st id).2.logs ↔ l ∈ st.logs ∧ l.robot_id ≠ id) ∧
    (∀ p, p ∈ (delete_robot st id).2.parts ↔ p ∈ st.parts ∧ p.robot_id ≠ id) ∧
    (∀ r, r ∈ (delete_robot st id).2.robots ↔ r ∈ st.robots ∧ r.id ≠ id) := by
  obtain ⟨r0, hr0, hr0id⟩ := hpresent
  cases hfind : findRobot st id with
  | none =>
    have h2 : st.robots.find? (fun r => r.id == id) = none := hfind
    have := List.find?_eq_none.mp h2 r0 hr0
    simp [hr0id] at this
  | some data =>
    refine ⟨by simp [delete_robot, hfind], ?_, ?_, ?_⟩ <;>
      intro x <;> simp [delete_robot, hfind, List.mem_filter]

/-- Witness for C1 at a concrete one-robot store with one part and one
log. -/
theorem delete_robot_cascade_no_orphans_witness :
    (∃ r ∈ (⟨[⟨1, some "r2", some "utility", 0⟩],
             [⟨1, some 1, some "wheel", some 4, some 0⟩],
             [⟨1, 1, some 1, "greased", 0, "amel"⟩]⟩ : Store).robots, r.id = 1) ∧
    ((delete_robot ⟨[⟨1, some "r2", some "utility", 0⟩],
                    [⟨1, some 1, some "wheel", some 4, some 0⟩],
                    [⟨1, 1, some 1, "greased", 0, "amel"⟩]⟩ 1).1 = .noContent ∧
     (∀ l, l ∈ (delete_robot ⟨[⟨1, some "r2", some "utility", 0⟩],
                    [⟨1, some 1, some "wheel", some 4, some 0⟩],
                    [⟨1, 1, some 1, "greased", 0, "amel"⟩]⟩ 1).2.logs ↔
        l ∈ (⟨[⟨1, some "r2", some "utility", 0⟩],
              [⟨1, some 1, some "wheel", some 4, some 0⟩],
              [⟨1, 1, some 1, "greased", 0, "amel"⟩]⟩ : Store).logs ∧ l.robot_id ≠ 1) ∧
     (∀ p, p ∈ (delete_robot ⟨[⟨1, some "r2", some "utility", 0⟩],
                    [⟨1, some 1, some "wheel", some 4, some 0⟩],
                    [⟨1, 1, some 1, "greased", 0, "amel"⟩]⟩ 1).2.parts ↔
        p ∈ (⟨[⟨1, some "r2", some "utility", 0⟩],
              [⟨1, some 1, some "wheel", some 4, some 0⟩],
              [⟨1, 1, some 1, "greased", 0, "amel"⟩]⟩ : Store).parts ∧ p.robot_id ≠ 1) ∧
     (∀ r, r ∈ (delete_robot ⟨[⟨1, some "r2", some "utility", 0⟩],
                    [⟨1, some 1, some "wheel", some 4, some 0⟩],
                    [⟨1, 1, some 1, "greased", 0, "amel"⟩]⟩ 1).2.robots ↔
        r ∈ (⟨[⟨1, some "r2", some "utility", 0⟩],
              [⟨1, some 1, some "wheel", some 4, some 0⟩],
              [⟨1, 1, some 1, "greased", 0, "amel"⟩]⟩ : Store).robots ∧ r.id ≠ 1)) :=
  ⟨⟨⟨1, some "r2", some "utility", 0⟩, by simp, rfl⟩,
   delete_robot_cascade_no_orphans _ 1 ⟨⟨1, some "r2", some "utility", 0⟩, by simp, rfl⟩⟩

/-- C2: listing the maintenance logs of a robot returns, with the boolean
parameter false, exactly the projections of the logs of that robot whose
parts_id is NULL, and, with the parameter true, exactly the projections
of all logs of that robot with no filter on parts_id. -/
theorem get_maintenance_logs_filter_semantics (st : Store) (robot_id : Int) :
    (∃ vs, get_maintenance_logs_of_a_robot st robot_id false = .ok vs ∧
      ∀ v, v ∈ vs ↔ ∃ l, l ∈ st.logs ∧ l.robot_id = robot_id ∧
        l.parts_id = none ∧ v = logView l) ∧
    (∃ vs, get_maintenance_logs_of_a_robot st robot_id true = .ok vs ∧
      ∀ v, v ∈ vs ↔ ∃ l, l ∈ st.logs ∧ l.robot_id = robot_id ∧ v = logView l) := by
  constructor
  · refine ⟨(st.logs.filter
        (fun l => l.robot_id == robot_id && l.parts_id == none)).map logView,
      by simp [get_maintenance_logs_of_a_robot], fun v => ?_⟩
    simp only [List.mem_map, List.mem_filter, Bool.and_eq_true, beq_iff_eq]
    constructor
    · rintro ⟨l, ⟨hl, h1, h2⟩, rfl⟩
      exact ⟨l, hl, h1, h2, rfl⟩
    · rintro ⟨l, hl, h1, h2, rfl⟩
      exact ⟨l, ⟨hl, h1, h2⟩, rfl⟩
  · refine ⟨(st.logs.filter (fun l => l.robot_id == robot_id)).map logView,
      by simp [get_maintenance_logs_of_a_robot], fun v => ?_⟩
    simp only [List.mem_map, List.mem_filter, beq_iff_eq]
    constructor
    · rintro ⟨l, ⟨hl, h1⟩, rfl⟩
      exact ⟨l, hl, h1, rfl⟩
    · rintro ⟨l, hl, h1, rfl⟩
      exact ⟨l, ⟨hl, h1⟩, rfl⟩

/-- C3 counterexample: on a store holding robot 1 and part (1, 1), an
update body setting no fields is rejected by the robot handler with a
raised 400 but by the part handler with a raised 404: the two endpoints
do not use the same error kind. -/
theorem empty_update_error_kinds_differ :
    (update_robot ⟨[⟨1, some "a", some "t", 0⟩],
        [⟨1, some 1, some "w", some 1, some 0⟩], []⟩ 1
        ⟨none, none⟩).1.raisedStatus = some 400 ∧
    (update_part ⟨[⟨1, some "a", some "t", 0⟩],
        [⟨1, some 1, some "w", some 1, some 0⟩], []⟩ 1 1
        ⟨none, none, none⟩).1.raisedStatus = some 404 ∧
    (update_robot ⟨[⟨1, some "a", some "t", 0⟩],
        [⟨1, some 1, some "w", some 1, some 0⟩], []⟩ 1
        ⟨none, none⟩).1.raisedStatus ≠
    (update_part ⟨[⟨1, some "a", some "t", 0⟩],
        [⟨1, some 1, some "w", some 1, some 0⟩], []⟩ 1 1
        ⟨none, none, none⟩).1.raisedStatus := by
  refine ⟨rfl, rfl, by decide⟩

/-- C3 (amended): a partial update whose body sets no fields is rejected
by both endpoints, but with different error kinds: the robot handler
raises 400 while the part handler raises 404. -/
theorem empty_update_rejected_both_endpoints (st : Store) (rid pid : Int)
    (r : robots) (p : parts)
    (hr : findRobot st rid = some r) (hp : findPart st rid pid = some p) :
    (update_robot st rid ⟨none, none⟩).1 = .raised 400 ∧
    (update_part st rid pid ⟨none, none, none⟩).1 = .raised 404 :=
  ⟨by simp [update_robot, hr], by simp [update_part, hp]⟩

/-- Witness for the amended C3 at a concrete store holding robot 1 and
part (1, 1). -/
theorem empty_update_rejected_both_endpoints_witness :
    (update_robot ⟨[⟨1, some "a", some "t", 0⟩],
        [⟨1, some 1, some "w", some 1, some 0⟩], []⟩ 1
        ⟨none, none⟩).1 = .raised 400 ∧
    (update_part ⟨[⟨1, some "a", some "t", 0⟩],
        [⟨1, some 1, some "w", some 1, some 0⟩], []⟩ 1 1
        ⟨none, none, none⟩).1 = .raised 404 :=
  empty_update_rejected_both_endpoints _ 1 1
    ⟨1, some "a", some "t", 0⟩ ⟨1, some 1, some "w", some 1, some 0⟩ rfl rfl

/-- C4 counterexample: deleting the absent robot 1 from the empty store
does not raise any HTTPException: the source RETURNS the
HTTPException(404) object, which FastAPI serialises as a 200 body. -/
theorem delete_robot_absent_not_raised :
    (delete_robot ⟨[], [], []⟩ 1).1.isRaised = false ∧
    (delete_robot ⟨[], [], []⟩ 1).1 = .returnedException 404 ∧
    (delete_robot ⟨[], [], []⟩ 1).2 = ⟨[], [], []⟩ :=
  ⟨rfl, rfl, rfl⟩

/-- C4 (amended): for a robot id absent from the store, delete_robot
responds with an HTTPException(404) object returned as the body rather
than raised, and the store is left unchanged. -/
theorem delete_robot_absent_returns_404 (st : Store) (id : Int)
    (habsent : ∀ r ∈ st.robots, r.id ≠ id) :
    (delete_robot st id).1 = .returnedException 404 ∧
    (delete_robot st id).1.isRaised = false ∧
    (delete_robot st id).2 = st := by
  have h := findRobot_eq_none_of_absent st id habsent
  exact ⟨by simp [delete_robot, h], by simp [delete_robot, h, HandlerOutcome.isRaised],
    by simp [delete_robot, h]⟩

/-- Witness for the amended C4 on the empty store. -/
theorem delete_robot_absent_returns_404_witness :
    (delete_robot ⟨[], [], []⟩ 2).1 = .returnedException 404 ∧
    (delete_robot ⟨[], [], []⟩ 2).1.isRaised = false ∧
    (delete_robot ⟨[], [], []⟩ 2).2 = ⟨[], [], []⟩ :=
  delete_robot_absent_returns_404 ⟨[], [], []⟩ 2 (by simp)

/-- C5: creating a part under an absent robot id raises 404 and leaves
the store, in particular the parts table, unchanged. -/
theorem add_part_absent_robot_not_found (st : Store) (rid : Int)
    (body : create_update_parts) (habsent : ∀ r ∈ st.robots, r.id ≠ rid) :
    (add_part_in_a_robot st rid body).1 = .raised 404 ∧
    (add_part_in_a_robot st rid body).2 = st := by
  have h := findRobot_eq_none_of_absent st rid habsent
  exact ⟨by simp [add_part_in_a_robot, h], by simp [add_part_in_a_robot, h]⟩

/-- Witness for C5: the concrete scenario of the spec, a part body on
the nonexistent robot 1 of the empty store. -/
theorem add_part_absent_robot_not_found_witness :
    (add_part_in_a_robot ⟨[], [], []⟩ 1 ⟨some "wheel", some 4, none⟩).1 = .raised 404 ∧
    (add_part_in_a_robot ⟨[], [], []⟩ 1 ⟨some "wheel", some 4, none⟩).2 = ⟨[], [], []⟩ :=
  add_part_absent_robot_not_found ⟨[], [], []⟩ 1 ⟨some "wheel", some 4, none⟩ (by simp)

/-- C6: when creating a robot succeeds, fetching the created robot by the
server-assigned id returns exactly the row of the creation response, so
the id, name, type and created_at fields round-trip. -/
theorem add_robot_roundtrip (st : Store) (newId : Int) (today : Date)
    (body : create_update_robots) (r : robots)
    (hfresh : ∀ r0 ∈ st.robots, r0.id ≠ newId)
    (hok : (add_robot st newId today body).1 = .ok r) :
    get_specific_robot (add_robot st newId today body).2 newId = .ok r := by
  have hnone : st.robots.find? (fun r0 => r0.id == newId) = none := by
    rw [List.find?_eq_none]
    intro x hx
    simpa using hfresh x hx
  simp only [add_robot] at hok ⊢
  split at hok
  · exact absurd hok (by simp)
  · case _ h =>
    have h2 : HandlerOutcome.ok
        ({ id := newId, name := body.name, type := body.type, created_at := today } : robots) =
        HandlerOutcome.ok r := hok
    injection h2 with h3
    subst h3
    rw [if_neg h]
    simp only [get_specific_robot, findRobot]
    rw [List.find?_append, hnone]
    simp [List.find?]

/-- Witness for C6: creating robot r2 in the empty store with assigned id
1 and fetching it back. -/
theorem add_robot_roundtrip_witness :
    (add_robot ⟨[], [], []⟩ 1 0 ⟨some "r2", some "utility"⟩).1 =
      .ok ⟨1, some "r2", some "utility", 0⟩ ∧
    get_specific_robot (add_robot ⟨[], [], []⟩ 1 0 ⟨some "r2", some "utility"⟩).2 1 =
      .ok ⟨1, some "r2", some "utility", 0⟩ :=
  ⟨rfl, add_robot_roundtrip ⟨[], [], []⟩ 1 0 ⟨some "r2", some "utility"⟩
    ⟨1, some "r2", some "utility", 0⟩ (by simp) rfl⟩

/-- C7: when a non-empty robot update hits a commit failure (here the
UNIQUE violation on the updated name), the update is rolled back leaving
the store unchanged, no error is raised, and the handler still answers
with the success shape carrying the reloaded stored row. -/
theorem update_robot_commit_failure_silent (st : Store) (id : Int)
    (body : create_update_robots) (data : robots)
    (hfind : findRobot st id = some data)
    (hnonempty : (body.name.isNone && body.type.isNone) = false)
    (hconflict : nameConflict st.robots id (apply_robot_updates data body).name = true) :
    (update_robot st id body).1 = .ok data ∧
    (update_robot st id body).1.isRaised = false ∧
    (update_robot st id body).2 = st := by
  refine ⟨?_, ?_, ?_⟩ <;>
    simp [update_robot, hfind, hnonempty, hconflict, HandlerOutcome.isRaised]

/-- Witness for C7: renaming robot 1 to the name of robot 2 violates the
UNIQUE constraint; the store is unchanged and the response is still
success-shaped. -/
theorem update_robot_commit_failure_silent_witness :
    (update_robot ⟨[⟨1, some "a", some "t", 0⟩, ⟨2, some "b", some "t", 0⟩], [], []⟩ 1
        ⟨some "b", none⟩).1 = .ok ⟨1, some "a", some "t", 0⟩ ∧
    (update_robot ⟨[⟨1, some "a", some "t", 0⟩, ⟨2, some "b", some "t", 0⟩], [], []⟩ 1
        ⟨some "b", none⟩).1.isRaised = false ∧
    (update_robot ⟨[⟨1, some "a", some "t", 0⟩, ⟨2, some "b", some "t", 0⟩], [], []⟩ 1
        ⟨some "b", none⟩).2 =
      ⟨[⟨1, some "a", some "t", 0⟩, ⟨2, some "b", some "t", 0⟩], [], []⟩ :=
  update_robot_commit_failure_silent
    ⟨[⟨1, some "a", some "t", 0⟩, ⟨2, some "b", some "t", 0⟩], [], []⟩ 1
    ⟨some "b", none⟩ ⟨1, some "a", some "t", 0⟩ rfl rfl (by decide)

/-- A composite primary-key lookup hit is a parts row with the looked-up
key. -/
lemma findPart_some (st : Store) (rid pid : Int) (p : parts)
    (h : findPart st rid pid = some p) :
    p ∈ st.parts ∧ p.robot_id = rid ∧ p.id = some pid := by
  unfold findPart at h
  refine ⟨List.mem_of_find?_eq_some h, ?_⟩
  have := List.find?_some h
  simpa using this

/-- C8: listing the maintenance logs of a robot never raises (there is no
robot existence check in the handler), and on a store whose logs all
reference existing robots, an absent robot id yields a success response
with the empty list. -/
theorem logs_listing_never_not_found (st : Store) (rid : Int) (b : Bool) :
    (get_maintenance_logs_of_a_robot st rid b).isRaised = false ∧
    ((∀ l ∈ st.logs, ∃ r ∈ st.robots, r.id = l.robot_id) →
     (∀ r ∈ st.robots, r.id ≠ rid) →
     get_maintenance_logs_of_a_robot st rid b = .ok []) := by
  constructor
  · cases b <;> simp [get_maintenance_logs_of_a_robot, HandlerOutcome.isRaised]
  · intro hwf habsent
    have hnot : ∀ l ∈ st.logs, l.robot_id ≠ rid := by
      intro l hl he
      obtain ⟨r, hr, hrid⟩ := hwf l hl
      exact habsent r hr (by rw [hrid, he])
    have h1 : st.logs.filter (fun l => l.robot_id == rid && l.parts_id == none) = [] :=
      List.filter_eq_nil_iff.mpr (fun l hl => by simp [hnot l hl])
    have h2 : st.logs.filter (fun l => l.robot_id == rid) = [] :=
      List.filter_eq_nil_iff.mpr (fun l hl => by simp [hnot l hl])
    cases b <;> simp [get_maintenance_logs_of_a_robot, h1, h2]

/-- Witness for C8 on the empty store: robot 1 does not exist and the
listing still succeeds with the empty list. -/
theorem logs_listing_never_not_found_witness :
    (get_maintenance_logs_of_a_robot ⟨[], [], []⟩ 1 false).isRaised = false ∧
    get_maintenance_logs_of_a_robot ⟨[], [], []⟩ 1 false = .ok [] :=
  ⟨(logs_listing_never_not_found ⟨[], [], []⟩ 1 false).1,
   (logs_listing_never_not_found ⟨[], [], []⟩ 1 false).2 (by simp) (by simp)⟩

/-- C9: both partial-update handlers can only write the fields of their
transfer shapes, so every robot row after a robot update keeps the id and
created_at of a pre-existing row, and every parts row after a part update
keeps the (robot_id, id) key of a pre-existing row. -/
theorem update_endpoints_preserve_key_fields (st : Store) (id rid pid : Int)
    (rbody : create_update_robots) (pbody : create_update_parts) :
    (∀ r2 ∈ (update_robot st id rbody).2.robots,
       ∃ r1 ∈ st.robots, r2.id = r1.id ∧ r2.created_at = r1.created_at) ∧
    (∀ p2 ∈ (update_part st rid pid pbody).2.parts,
       ∃ p1 ∈ st.parts, p2.robot_id = p1.robot_id ∧ p2.id = p1.id) := by
  constructor
  · intro r2 hr2
    cases hfind : findRobot st id with
    | none =>
      simp only [update_robot, hfind] at hr2
      exact ⟨r2, hr2, rfl, rfl⟩
    | some data =>
      simp only [update_robot, hfind] at hr2
      split at hr2
      · exact ⟨r2, hr2, rfl, rfl⟩
      · split at hr2
        · exact ⟨r2, hr2, rfl, rfl⟩
        · obtain ⟨r1, hr1, heq⟩ := List.mem_map.mp hr2
          by_cases hid : (r1.id == id) = true
          · rw [if_pos hid] at heq
            exact ⟨data, (findRobot_some st id data hfind).1,
              by rw [← heq]; rfl, by rw [← heq]; rfl⟩
          · rw [if_neg hid] at heq
            exact ⟨r1, hr1, by rw [← heq], by rw [← heq]⟩
  · intro p2 hp2
    cases hfind : findPart st rid pid with
    | none =>
      simp only [update_part, hfind] at hp2
      exact ⟨p2, hp2, rfl, rfl⟩
    | some data =>
      simp only [update_part, hfind] at hp2
      split at hp2
      · exact ⟨p2, hp2, rfl, rfl⟩
      · obtain ⟨p1, hp1, heq⟩ := List.mem_map.mp hp2
        by_cases hkey : (p1.robot_id == rid && p1.id == some pid) = true
        · rw [if_pos hkey] at heq
          exact ⟨data, (findPart_some st rid pid data hfind).1,
            by rw [← heq]; rfl, by rw [← heq]; rfl⟩
        · rw [if_neg hkey] at heq
          exact ⟨p1, hp1, by rw [← heq], by rw [← heq]⟩

/-- C10: the create-maintenance-log handler never raises a not-found (it
performs no existence validation of robot_id or parts_id); whenever the
storage-layer foreign keys are violated, the rejection is the unhandled
storage error, and the store is unchanged. -/
theorem add_maintenance_log_storage_layer_rejection (st : Store) (rid newId : Int)
    (today : Date) (body : create_maintenance_log) :
    (add_maintenance_log st rid newId today body).1.isRaised = false ∧
    (log_fk_ok st rid body.parts_id = false →
      (add_maintenance_log st rid newId today body).1 = .storageError ∧
      (add_maintenance_log st rid newId today body).2 = st) := by
  constructor
  · cases h : log_fk_ok st rid body.parts_id <;>
      simp [add_maintenance_log, h, HandlerOutcome.isRaised]
  · intro hviol
    exact ⟨by simp [add_maintenance_log, hviol], by simp [add_maintenance_log, hviol]⟩

/-- Witness for C10: creating a log under the nonexistent robot 1 of the
empty store hits the foreign-key violation, not a handler 404. -/
theorem add_maintenance_log_storage_layer_rejection_witness :
    (add_maintenance_log ⟨[], [], []⟩ 1 1 0 ⟨none, "greased", "amel"⟩).1.isRaised = false ∧
    log_fk_ok ⟨[], [], []⟩ 1 none = false ∧
    (add_maintenance_log ⟨[], [], []⟩ 1 1 0 ⟨none, "greased", "amel"⟩).1 = .storageError ∧
    (add_maintenance_log ⟨[], [], []⟩ 1 1 0 ⟨none, "greased", "amel"⟩).2 = ⟨[], [], []⟩ :=
  ⟨(add_maintenance_log_storage_layer_rejection ⟨[], [], []⟩ 1 1 0
      ⟨none, "greased", "amel"⟩).1, rfl,
   (add_maintenance_log_storage_layer_rejection ⟨[], [], []⟩ 1 1 0
      ⟨none, "greased", "amel"⟩).2 rfl⟩

end Robohub
